import Mathlib

/-!
Shallow embedding of `src/razorpay.js`: the edusource backend's payment
order-creation / payment-verification HTTP handler, together with proofs of
its specification properties.

The handler is modelled as a pure function from a configuration, a request,
the current document-store contents and an environment (the HMAC primitive,
the current clock value, and fault switches for the external calls that can
reject) to a result holding the HTTP response, the store after the request,
the ordered trace of store operations that were issued, and the list of
outbound provider order-creation calls.
-/

namespace EduSource

/-- JS truthiness of an optional string field: `undefined` and `""` are
falsy, every other string is truthy. -/
def truthyS : Option String → Bool
  | some s => !(s == "")
  | none => false

/-- JS truthiness of an optional numeric field: `undefined` and `0` are
falsy. -/
def truthyI : Option Int → Bool
  | some n => !(n == 0)
  | none => false

/-- Decimal rendering of a natural number, as produced by the template
literal `${Date.now()}` inside `rcpt_${Date.now()}` (razorpay.js line 108). -/
def natDecimal (n : Nat) : String :=
  if n = 0 then "0"
  else String.mk (((Nat.digits 10 n).map (fun d => Char.ofNat (48 + d))).reverse)

/-- Inverse of the digit-to-character encoding used by `natDecimal`. -/
def charDigit (c : Char) : Nat := c.toNat - 48

/-- Read a decimal string back into the natural number it renders. -/
def decodeDecimal (s : String) : Nat :=
  Nat.ofDigits 10 ((s.data.map charDigit).reverse)

theorem charDigit_encode {d : Nat} (hd : d < 10) :
    charDigit (Char.ofNat (48 + d)) = d := by
  interval_cases d <;> decide

theorem decodeDecimal_natDecimal (n : Nat) : decodeDecimal (natDecimal n) = n := by
  by_cases h : n = 0
  · subst h; decide
  · unfold natDecimal decodeDecimal
    rw [if_neg h]
    simp only [String.data]
    rw [List.map_reverse, List.reverse_reverse, List.map_map]
    have hmap : (Nat.digits 10 n).map (charDigit ∘ fun d => Char.ofNat (48 + d)) =
        Nat.digits 10 n := by
      rw [List.map_congr_left (g := id), List.map_id]
      intro d hdmem
      exact charDigit_encode (Nat.digits_lt_base (by norm_num) hdmem)
    rw [hmap, Nat.ofDigits_digits]

theorem natDecimal_injective : Function.Injective natDecimal :=
  Function.LeftInverse.injective decodeDecimal_natDecimal

theorem natDecimal_length_le {n k : Nat} (hk : 0 < k) (h : n < 10 ^ k) :
    (natDecimal n).length ≤ k := by
  by_cases h0 : n = 0
  · subst h0; simpa [natDecimal] using hk
  · unfold natDecimal
    rw [if_neg h0]
    show (((Nat.digits 10 n).map (fun d => Char.ofNat (48 + d))).reverse).length ≤ k
    rw [List.length_reverse, List.length_map]
    have hlog := Nat.log_lt_of_lt_pow h0 h
    rw [Nat.digits_len 10 n (by norm_num) h0]
    omega

/-- The receipt identifier generated for each provider order-creation call:
`rcpt_${Date.now()}` (razorpay.js line 108). -/
def receiptId (now : Nat) : String := "rcpt_" ++ natDecimal now

theorem receiptId_injective : Function.Injective receiptId := by
  intro a b h
  apply natDecimal_injective
  have hd : ("rcpt_" ++ natDecimal a).data = ("rcpt_" ++ natDecimal b).data := by
    unfold receiptId at h
    rw [h]
  simp only [String.data_append] at hd
  exact String.ext (List.append_cancel_left hd)

theorem receiptId_length_le {now : Nat} (h : now < 10 ^ 35) :
    (receiptId now).length ≤ 40 := by
  have hlen : (natDecimal now).length ≤ 35 := natDecimal_length_le (by norm_num) h
  have : (receiptId now).length = 5 + (natDecimal now).length := by
    unfold receiptId
    rw [String.length_append]
    rfl
  omega

/-- An enrollment record document as appended to the `enrollments` collection
(razorpay.js lines 173–184). The server-assigned `enrolledAt` timestamp is
generated inside the document store, not by the handler, and is omitted. -/
structure EnrollmentRecord where
  userId : String
  courseId : String
  courseTitle : String
  paymentId : String
  orderId : String
  amount : Int
  currency : String
  enrollmentType : String
  status : String
  deriving Repr, DecidableEq

/-- A Course document as read from the `courses` collection: the fields the
handler touches. `enrolledUsers` is optional because the document may lack
the field (razorpay.js line 160 defaults it to `[]`). -/
structure Course where
  enrolledUsers : Option (List String)
  price : Int
  deriving Repr, DecidableEq

/-- The document store contents: the `courses` collection (keyed by document
id) and the `enrollments` collection. -/
structure Store where
  courses : List (String × Course)
  enrollments : List EnrollmentRecord
  deriving Repr, DecidableEq

/-- Document lookup in the `courses` collection
(`db.collection('courses').doc(courseId).get()`, razorpay.js lines 151–152). -/
def lookupCourse : List (String × Course) → String → Option Course
  | [], _ => none
  | p :: rest, id => if p.fst = id then some p.snd else lookupCourse rest id

def Store.getCourse (s : Store) (id : String) : Option Course :=
  lookupCourse s.courses id

/-- Firestore `FieldValue.arrayUnion`: adds the element only when absent. -/
def arrayUnion (l : List String) (x : String) : List String :=
  if x ∈ l then l else l ++ [x]

/-- The course document after `courseRef.update({enrolledUsers: arrayUnion(userId)})`
(razorpay.js lines 168–170). -/
def enrollUser (c : Course) (uid : String) : Course :=
  { c with enrolledUsers := some (arrayUnion (c.enrolledUsers.getD []) uid) }

def updateCourseList : List (String × Course) → String → String → List (String × Course)
  | [], _, _ => []
  | p :: rest, id, uid =>
      (if p.fst = id then (p.fst, enrollUser p.snd uid) else p) :: updateCourseList rest id uid

def Store.updateEnrolledUsers (s : Store) (id : String) (uid : String) : Store :=
  { s with courses := updateCourseList s.courses id uid }

/-- Appending a record via `db.collection('enrollments').add(record)`
(razorpay.js lines 173–184). -/
def Store.addEnrollment (s : Store) (r : EnrollmentRecord) : Store :=
  { s with enrollments := s.enrollments ++ [r] }

/-- One store operation issued by the handler, recorded in order. -/
inductive StoreOp where
  | getCourse (courseId : String)
  | updateCourse (courseId : String) (userId : String)
  | addEnrollment (record : EnrollmentRecord)
  deriving Repr, DecidableEq

/-- The argument object of `instance.orders.create` (razorpay.js lines 111–116). -/
structure OrderCreateArgs where
  amount : Int
  currency : String
  receipt : String
  courseId : String
  userId : String
  deriving Repr, DecidableEq

/-- The JSON body of an HTTP response sent by the handler, one constructor
per response shape appearing in razorpay.js. -/
inductive ResBody where
  | empty
  | info (message : String)
  | err (success : Bool) (error : String)
  | msg (success : Bool) (message : String)
  | orderCreated (success : Bool) (orderId : String) (amount : Int) (currency : String)
  | orderFailed (success : Bool) (error : String) (details : String)
  | verified (success : Bool) (status : String) (message : String)
  | verifyError (success : Bool) (message : String) (details : String)
  deriving Repr, DecidableEq

/-- The `success` field of a response body, when present. -/
def ResBody.successFlag : ResBody → Option Bool
  | .empty => none
  | .info _ => none
  | .err s _ => some s
  | .msg s _ => some s
  | .orderCreated s _ _ _ => some s
  | .orderFailed s _ _ => some s
  | .verified s _ _ => some s
  | .verifyError s _ _ => some s

structure Response where
  status : Nat
  body : ResBody
  deriving Repr, DecidableEq

/-- The parsed JSON body of a POST request; absent fields are `none`.
(The handler's `typeof req.body !== 'object'` guard cannot fire in this
model, where a body is always a parsed object.) -/
structure Body where
  action : Option String := none
  amount : Option Int := none
  currency : Option String := none
  courseId : Option String := none
  userId : Option String := none
  razorpay_payment_id : Option String := none
  razorpay_order_id : Option String := none
  razorpay_signature : Option String := none
  courseTitle : Option String := none
  deriving Repr, DecidableEq

structure Req where
  method : String
  body : Body
  deriving Repr, DecidableEq

/-- Environment-provided configuration: `RAZORPAY_KEY_ID`,
`RAZORPAY_KEY_SECRET` and whether the Razorpay client instance was
constructed (razorpay.js lines 43–60). -/
structure Config where
  keyId : Option String
  keySecret : Option String
  instancePresent : Bool

/-- The request-scoped environment: the HMAC-SHA256 hex-digest primitive
(`crypto.createHmac('sha256', key).update(msg).digest('hex')`, modelled as an
abstract function of key and message), the current clock value `Date.now()`
in milliseconds, the provider's reply to `orders.create` (`some id` when the
call resolves with an order carrying that id and echoing the submitted amount
and currency, per the provider contract in the spec's Order data model;
`none` when it rejects), and fault switches making the two store mutations
reject. -/
structure Env where
  hmacSha256Hex : String → String → String
  now : Nat
  orderCreateId : Option String
  updateFails : Bool
  addFails : Bool

/-- Result of one handler run: HTTP response, the store afterwards, the
ordered trace of store operations attempted, and the outbound provider
order-creation calls made. -/
structure HResult where
  resp : Response
  store : Store
  ops : List StoreOp
  providerCalls : List OrderCreateArgs

/-- The `create_order` branch (razorpay.js lines 93–128). On provider
success the response is built from the created order object (line 118),
which carries the submitted amount and currency. -/
def createOrder (env : Env) (st : Store) (b : Body) : HResult :=
  if !truthyI b.amount || !truthyS b.currency || !truthyS b.courseId || !truthyS b.userId then
    ⟨⟨400, .err false "Missing required details for order creation."⟩, st, [], []⟩
  else if b.amount.getD 0 < 100 then
    ⟨⟨400, .err false "Amount must be at least ₹1 (100 paisa)."⟩, st, [], []⟩
  else
    match env.orderCreateId with
    | some oid =>
        ⟨⟨200, .orderCreated true oid (b.amount.getD 0) (b.currency.getD "")⟩, st, [],
          [⟨b.amount.getD 0, b.currency.getD "", receiptId env.now,
            b.courseId.getD "", b.userId.getD ""⟩]⟩
    | none =>
        ⟨⟨500, .orderFailed false "Failed to create Razorpay order." "provider error"⟩, st, [],
          [⟨b.amount.getD 0, b.currency.getD "", receiptId env.now,
            b.courseId.getD "", b.userId.getD ""⟩]⟩

/-- The `verify_payment` branch (razorpay.js lines 130–192). `secret` is
`RAZORPAY_KEY_SECRET`. A fault switch set in `env` makes the corresponding
store mutation reject; the rejection is caught by the surrounding
`try`/`catch` (line 189) and reported as HTTP 500. -/
def verifyPayment (secret : String) (env : Env) (st : Store) (b : Body) : HResult :=
  if !truthyS b.razorpay_payment_id || !truthyS b.razorpay_order_id ||
      !truthyS b.razorpay_signature || !truthyS b.courseId ||
      !truthyS b.courseTitle || !truthyS b.userId then
    ⟨⟨400, .msg false "Missing payment verification details."⟩, st, [], []⟩
  else if env.hmacSha256Hex secret
      (b.razorpay_order_id.getD "" ++ "|" ++ b.razorpay_payment_id.getD "") ≠
      b.razorpay_signature.getD "" then
    ⟨⟨400, .msg false "Payment signature verification failed."⟩, st, [], []⟩
  else
    match st.getCourse (b.courseId.getD "") with
    | none =>
        ⟨⟨404, .msg false "Course not found for enrollment."⟩, st,
          [.getCourse (b.courseId.getD "")], []⟩
    | some courseData =>
        if b.userId.getD "" ∈ courseData.enrolledUsers.getD [] then
          ⟨⟨200, .verified true "already_enrolled" "You are already enrolled in this course."⟩,
            st, [.getCourse (b.courseId.getD "")], []⟩
        else if env.updateFails then
          ⟨⟨500, .verifyError false "Internal server error during verification." "update failed"⟩,
            st, [.getCourse (b.courseId.getD ""),
                 .updateCourse (b.courseId.getD "") (b.userId.getD "")], []⟩
        else if env.addFails then
          ⟨⟨500, .verifyError false "Internal server error during verification." "add failed"⟩,
            st.updateEnrolledUsers (b.courseId.getD "") (b.userId.getD ""),
            [.getCourse (b.courseId.getD ""),
             .updateCourse (b.courseId.getD "") (b.userId.getD ""),
             .addEnrollment ⟨b.userId.getD "", b.courseId.getD "", b.courseTitle.getD "",
               b.razorpay_payment_id.getD "", b.razorpay_order_id.getD "",
               courseData.price, "INR", "Paid", "completed"⟩], []⟩
        else
          ⟨⟨200, .verified true "success" "Payment successful and course enrolled!"⟩,
            (st.updateEnrolledUsers (b.courseId.getD "") (b.userId.getD "")).addEnrollment
              ⟨b.userId.getD "", b.courseId.getD "", b.courseTitle.getD "",
               b.razorpay_payment_id.getD "", b.razorpay_order_id.getD "",
               courseData.price, "INR", "Paid", "completed"⟩,
            [.getCourse (b.courseId.getD ""),
             .updateCourse (b.courseId.getD "") (b.userId.getD ""),
             .addEnrollment ⟨b.userId.getD "", b.courseId.getD "", b.courseTitle.getD "",
               b.razorpay_payment_id.getD "", b.razorpay_order_id.getD "",
               courseData.price, "INR", "Paid", "completed"⟩], []⟩

/-- The exported request handler (razorpay.js lines 63–201): OPTIONS
preflight, the configuration gate, then the POST action dispatch, with a
descriptive 200 for every other method. -/
def handler (cfg : Config) (env : Env) (st : Store) (req : Req) : HResult :=
  if req.method = "OPTIONS" then
    ⟨⟨200, .empty⟩, st, [], []⟩
  else if !truthyS cfg.keyId || !truthyS cfg.keySecret || !cfg.instancePresent then
    ⟨⟨500, .err false "Payment backend not fully configured."⟩, st, [], []⟩
  else if req.method = "POST" then
    if req.body.action = some "create_order" then
      createOrder env st req.body
    else if req.body.action = some "verify_payment" then
      verifyPayment (cfg.keySecret.getD "") env st req.body
    else
      ⟨⟨400, .err false "Invalid action specified."⟩, st, [], []⟩
  else
    ⟨⟨200, .info "Razorpay API endpoint for EduSource. Send POST requests with 'action' in body."⟩,
      st, [], []⟩

/-- Holds when no `addEnrollment` operation occurs before the first
`updateCourse` operation in a trace. -/
def noAddBeforeUpdate : List StoreOp → Bool
  | [] => true
  | .addEnrollment _ :: _ => false
  | .updateCourse _ _ :: _ => true
  | .getCourse _ :: rest => noAddBeforeUpdate rest

theorem getCourse_addEnrollment (s : Store) (r : EnrollmentRecord) (id : String) :
    (s.addEnrollment r).getCourse id = s.getCourse id := rfl

theorem enrollments_addEnrollment (s : Store) (r : EnrollmentRecord) :
    (s.addEnrollment r).enrollments = s.enrollments ++ [r] := rfl

theorem enrollments_updateEnrolledUsers (s : Store) (id uid : String) :
    (s.updateEnrolledUsers id uid).enrollments = s.enrollments := rfl

theorem lookupCourse_update (l : List (String × Course)) (id uid : String) :
    lookupCourse (updateCourseList l id uid) id =
      (lookupCourse l id).map (fun c => enrollUser c uid) := by
  induction l with
  | nil => rfl
  | cons p rest ih =>
      by_cases h : p.fst = id
      · simp [updateCourseList, lookupCourse, h]
      · simp [updateCourseList, lookupCourse, h, ih]

theorem getCourse_updateEnrolledUsers (s : Store) (id uid : String) :
    (s.updateEnrolledUsers id uid).getCourse id =
      (s.getCourse id).map (fun c => enrollUser c uid) :=
  lookupCourse_update s.courses id uid

theorem mem_arrayUnion_self (l : List String) (x : String) : x ∈ arrayUnion l x := by
  unfold arrayUnion
  by_cases h : x ∈ l
  · rwa [if_pos h]
  · rw [if_neg h]
    exact List.mem_append.mpr (Or.inr (List.mem_singleton.mpr rfl))

/-- When the configuration gate passes and the POST action is
`verify_payment`, the handler runs the verification branch keyed by
`RAZORPAY_KEY_SECRET`. -/
theorem handler_verify_eq (cfg : Config) (env : Env) (st : Store) (req : Req)
    (hmeth : req.method = "POST") (hact : req.body.action = some "verify_payment")
    (hk : truthyS cfg.keyId = true) (hs : truthyS cfg.keySecret = true)
    (hi : cfg.instancePresent = true) :
    handler cfg env st req = verifyPayment (cfg.keySecret.getD "") env st req.body := by
  unfold handler
  rw [if_neg (by rw [hmeth]; decide), if_neg (by simp [hk, hs, hi]), if_pos hmeth,
    if_neg (by rw [hact]; decide), if_pos hact]

/-- When the configuration gate passes and the POST action is
`create_order`, the handler runs the order-creation branch. -/
theorem handler_create_eq (cfg : Config) (env : Env) (st : Store) (req : Req)
    (hmeth : req.method = "POST") (hact : req.body.action = some "create_order")
    (hk : truthyS cfg.keyId = true) (hs : truthyS cfg.keySecret = true)
    (hi : cfg.instancePresent = true) :
    handler cfg env st req = createOrder env st req.body := by
  unfold handler
  rw [if_neg (by rw [hmeth]; decide), if_neg (by simp [hk, hs, hi]), if_pos hmeth, if_pos hact]

/-- Concrete HMAC stand-in used by the witness fixtures. -/
def wHmac (k m : String) : String := k ++ "#" ++ m

def wCfg : Config := ⟨some "kid", some "secret", true⟩

def wEnv : Env := ⟨wHmac, 1700000000000, some "order_abc", false, false⟩

def wEnvUpdFail : Env := ⟨wHmac, 1700000000000, some "order_abc", true, false⟩

def wStore : Store := ⟨[("c1", ⟨some [], 500⟩)], []⟩

def wStoreNone : Store := ⟨[("c1", ⟨none, 500⟩)], []⟩

def wStoreEnrolled : Store := ⟨[("c1", ⟨some ["u1"], 500⟩)], []⟩

def wVerifyBody : Body :=
  { action := some "verify_payment", razorpay_payment_id := some "pay_1",
    razorpay_order_id := some "order_1", razorpay_signature := some "secret#order_1|pay_1",
    courseId := some "c1", courseTitle := some "T", userId := some "u1" }

def wCreateBody : Body :=
  { action := some "create_order", amount := some 500, currency := some "INR",
    courseId := some "c1", userId := some "u1" }

def wReqVerify : Req := ⟨"POST", wVerifyBody⟩

def wReqCreate : Req := ⟨"POST", wCreateBody⟩

/-- C10: whenever the provider key id, key secret, or provider client
instance is missing, every non-OPTIONS request returns HTTP 500 with
`{success:false, error:"Payment backend not fully configured."}`, with no
outbound call and no store access (the store is returned unmodified and
both traces are empty). -/
theorem config_gate_blocks (cfg : Config) (env : Env) (st : Store) (req : Req)
    (hmeth : req.method ≠ "OPTIONS")
    (hmiss : truthyS cfg.keyId = false ∨ truthyS cfg.keySecret = false ∨
      cfg.instancePresent = false) :
    handler cfg env st req =
      ⟨⟨500, .err false "Payment backend not fully configured."⟩, st, [], []⟩ := by
  unfold handler
  rw [if_neg hmeth, if_pos]
  rcases hmiss with h | h | h <;> simp [h]

/-- C10 witness: a GET request against a configuration missing the key id. -/
theorem config_gate_blocks_witness :
    handler ⟨none, some "secret", true⟩ wEnv wStore ⟨"GET", {}⟩ =
      ⟨⟨500, .err false "Payment backend not fully configured."⟩, wStore, [], []⟩ :=
  config_gate_blocks _ _ _ _ (by decide) (Or.inl rfl)

/-- C6: with the backend configured, a POST whose action is neither
`create_order` nor `verify_payment` gets exactly
`{success:false, error:"Invalid action specified."}` with HTTP 400, and a
non-POST, non-OPTIONS request gets the informational HTTP 200 response. -/
theorem invalid_action_and_non_post (cfg : Config) (env : Env) (st : Store) (req : Req)
    (hk : truthyS cfg.keyId = true) (hs : truthyS cfg.keySecret = true)
    (hi : cfg.instancePresent = true) :
    (req.method = "POST" → req.body.action ≠ some "create_order" →
      req.body.action ≠ some "verify_payment" →
      (handler cfg env st req).resp = ⟨400, .err false "Invalid action specified."⟩) ∧
    (req.method ≠ "POST" → req.method ≠ "OPTIONS" →
      (handler cfg env st req).resp =
        ⟨200, .info "Razorpay API endpoint for EduSource. Send POST requests with 'action' in body."⟩) := by
  constructor
  · intro hp hc hv
    unfold handler
    rw [if_neg (by rw [hp]; decide), if_neg (by simp [hk, hs, hi]), if_pos hp,
      if_neg hc, if_neg hv]
  · intro hnp hno
    unfold handler
    rw [if_neg hno, if_neg (by simp [hk, hs, hi]), if_neg hnp]

/-- C6 witness: a POST with action `"weird"` and a GET request. -/
theorem invalid_action_and_non_post_witness :
    (handler wCfg wEnv wStore ⟨"POST", { action := some "weird" }⟩).resp =
      ⟨400, .err false "Invalid action specified."⟩ ∧
    (handler wCfg wEnv wStore ⟨"GET", {}⟩).resp =
      ⟨200, .info "Razorpay API endpoint for EduSource. Send POST requests with 'action' in body."⟩ :=
  ⟨(invalid_action_and_non_post wCfg wEnv wStore ⟨"POST", { action := some "weird" }⟩
      rfl rfl rfl).1 rfl (by decide) (by decide),
   (invalid_action_and_non_post wCfg wEnv wStore ⟨"GET", {}⟩ rfl rfl rfl).2
      (by decide) (by decide)⟩

/-- C4: a configured `create_order` request whose amount is below 100
(absent amounts count as 0) is rejected with HTTP 400 and `success:false`,
and no provider call and no store operation is made. -/
theorem create_order_low_amount (cfg : Config) (env : Env) (st : Store) (req : Req)
    (hmeth : req.method = "POST") (hact : req.body.action = some "create_order")
    (hk : truthyS cfg.keyId = true) (hs : truthyS cfg.keySecret = true)
    (hi : cfg.instancePresent = true)
    (hamt : req.body.amount.getD 0 < 100) :
    (handler cfg env st req).resp.status = 400 ∧
    (handler cfg env st req).resp.body.successFlag = some false ∧
    (handler cfg env st req).providerCalls = [] ∧
    (handler cfg env st req).ops = [] ∧
    (handler cfg env st req).store = st := by
  rw [handler_create_eq cfg env st req hmeth hact hk hs hi]
  unfold createOrder
  by_cases hm : (!truthyI req.body.amount || !truthyS req.body.currency ||
      !truthyS req.body.courseId || !truthyS req.body.userId) = true
  · rw [if_pos hm]
    exact ⟨rfl, rfl, rfl, rfl, rfl⟩
  · rw [if_neg hm, if_pos hamt]
    exact ⟨rfl, rfl, rfl, rfl, rfl⟩

/-- C4 witness: amount 50 with all other fields present. -/
theorem create_order_low_amount_witness :
    (handler wCfg wEnv wStore ⟨"POST", { wCreateBody with amount := some 50 }⟩).resp.status = 400 ∧
    (handler wCfg wEnv wStore ⟨"POST", { wCreateBody with amount := some 50 }⟩).resp.body.successFlag = some false ∧
    (handler wCfg wEnv wStore ⟨"POST", { wCreateBody with amount := some 50 }⟩).providerCalls = [] ∧
    (handler wCfg wEnv wStore ⟨"POST", { wCreateBody with amount := some 50 }⟩).ops = [] ∧
    (handler wCfg wEnv wStore ⟨"POST", { wCreateBody with amount := some 50 }⟩).store = wStore :=
  create_order_low_amount wCfg wEnv wStore _ rfl rfl rfl rfl rfl (by decide)

/-- C5: a configured `create_order` request with all four fields present and
amount ≥ 100 whose provider call succeeds returns HTTP 200 with
`{success:true, orderId, amount, currency}`, echoing the submitted amount
and currency unchanged, after exactly one provider order-creation call. -/
theorem create_order_success (cfg : Config) (env : Env) (st : Store) (req : Req)
    (hmeth : req.method = "POST") (hact : req.body.action = some "create_order")
    (hk : truthyS cfg.keyId = true) (hs : truthyS cfg.keySecret = true)
    (hi : cfg.instancePresent = true)
    (h1 : truthyI req.body.amount = true) (h2 : truthyS req.body.currency = true)
    (h3 : truthyS req.body.courseId = true) (h4 : truthyS req.body.userId = true)
    (hge : 100 ≤ req.body.amount.getD 0)
    (oid : String) (hoid : env.orderCreateId = some oid) :
    handler cfg env st req =
      ⟨⟨200, .orderCreated true oid (req.body.amount.getD 0) (req.body.currency.getD "")⟩,
        st, [],
        [⟨req.body.amount.getD 0, req.body.currency.getD "", receiptId env.now,
          req.body.courseId.getD "", req.body.userId.getD ""⟩]⟩ := by
  rw [handler_create_eq cfg env st req hmeth hact hk hs hi]
  unfold createOrder
  rw [if_neg (by simp [h1, h2, h3, h4]), if_neg (by omega), hoid]

/-- C5 witness: the spec's scenario, amount 500 in INR with provider order id
`order_abc`. -/
theorem create_order_success_witness :
    handler wCfg wEnv wStore wReqCreate =
      ⟨⟨200, .orderCreated true "order_abc" 500 "INR"⟩, wStore, [],
        [⟨500, "INR", receiptId 1700000000000, "c1", "u1"⟩]⟩ :=
  create_order_success wCfg wEnv wStore wReqCreate rfl rfl rfl rfl rfl rfl rfl rfl rfl
    (by decide) "order_abc" rfl

/-- C1: a configured `verify_payment` request with all six fields present
whose supplied signature differs from the hex HMAC-SHA256 digest of
`orderId + "|" + paymentId` under the provider's shared secret returns
HTTP 400 with `{success:false, message:"Payment signature verification failed."}`,
with no store operation issued and the store unmodified. -/
theorem verify_bad_signature_rejected (cfg : Config) (env : Env) (st : Store) (req : Req)
    (hmeth : req.method = "POST") (hact : req.body.action = some "verify_payment")
    (hk : truthyS cfg.keyId = true) (hs : truthyS cfg.keySecret = true)
    (hi : cfg.instancePresent = true)
    (h1 : truthyS req.body.razorpay_payment_id = true)
    (h2 : truthyS req.body.razorpay_order_id = true)
    (h3 : truthyS req.body.razorpay_signature = true)
    (h4 : truthyS req.body.courseId = true)
    (h5 : truthyS req.body.courseTitle = true)
    (h6 : truthyS req.body.userId = true)
    (hsig : env.hmacSha256Hex (cfg.keySecret.getD "")
        (req.body.razorpay_order_id.getD "" ++ "|" ++ req.body.razorpay_payment_id.getD "") ≠
      req.body.razorpay_signature.getD "") :
    handler cfg env st req =
      ⟨⟨400, .msg false "Payment signature verification failed."⟩, st, [], []⟩ := by
  rw [handler_verify_eq cfg env st req hmeth hact hk hs hi]
  unfold verifyPayment
  rw [if_neg (by simp [h1, h2, h3, h4, h5, h6]), if_pos hsig]

/-- C1 witness: the fixture request with a tampered signature. -/
theorem verify_bad_signature_rejected_witness :
    handler wCfg wEnv wStore
        ⟨"POST", { wVerifyBody with razorpay_signature := some "tampered" }⟩ =
      ⟨⟨400, .msg false "Payment signature verification failed."⟩, wStore, [], []⟩ :=
  verify_bad_signature_rejected wCfg wEnv wStore _ rfl rfl rfl rfl rfl rfl rfl rfl rfl rfl rfl
    (by decide)

/-- Reduction of the verification branch on the fully successful path:
signature matches, course found, user not yet enrolled, both mutations
succeed. -/
theorem verifyPayment_success (secret : String) (env : Env) (st : Store) (b : Body)
    (h1 : truthyS b.razorpay_payment_id = true)
    (h2 : truthyS b.razorpay_order_id = true)
    (h3 : truthyS b.razorpay_signature = true)
    (h4 : truthyS b.courseId = true)
    (h5 : truthyS b.courseTitle = true)
    (h6 : truthyS b.userId = true)
    (hsig : env.hmacSha256Hex secret
        (b.razorpay_order_id.getD "" ++ "|" ++ b.razorpay_payment_id.getD "") =
      b.razorpay_signature.getD "")
    (c : Course) (hc : st.getCourse (b.courseId.getD "") = some c)
    (hnot : b.userId.getD "" ∉ c.enrolledUsers.getD [])
    (hupd : env.updateFails = false) (hadd : env.addFails = false) :
    verifyPayment secret env st b =
      ⟨⟨200, .verified true "success" "Payment successful and course enrolled!"⟩,
        (st.updateEnrolledUsers (b.courseId.getD "") (b.userId.getD "")).addEnrollment
          ⟨b.userId.getD "", b.courseId.getD "", b.courseTitle.getD "",
           b.razorpay_payment_id.getD "", b.razorpay_order_id.getD "", c.price,
           "INR", "Paid", "completed"⟩,
        [.getCourse (b.courseId.getD ""),
         .updateCourse (b.courseId.getD "") (b.userId.getD ""),
         .addEnrollment ⟨b.userId.getD "", b.courseId.getD "", b.courseTitle.getD "",
           b.razorpay_payment_id.getD "", b.razorpay_order_id.getD "", c.price,
           "INR", "Paid", "completed"⟩], []⟩ := by
  unfold verifyPayment
  rw [if_neg (by simp [h1, h2, h3, h4, h5, h6]), if_neg (not_not_intro hsig), hc]
  dsimp only
  rw [if_neg hnot, if_neg (by simp [hupd]), if_neg (by simp [hadd])]

/-- Reduction of the verification branch when the user is already in
`enrolledUsers`: a distinct success status and no mutation. -/
theorem verifyPayment_already_enrolled (secret : String) (env : Env) (st : Store) (b : Body)
    (h1 : truthyS b.razorpay_payment_id = true)
    (h2 : truthyS b.razorpay_order_id = true)
    (h3 : truthyS b.razorpay_signature = true)
    (h4 : truthyS b.courseId = true)
    (h5 : truthyS b.courseTitle = true)
    (h6 : truthyS b.userId = true)
    (hsig : env.hmacSha256Hex secret
        (b.razorpay_order_id.getD "" ++ "|" ++ b.razorpay_payment_id.getD "") =
      b.razorpay_signature.getD "")
    (c : Course) (hc : st.getCourse (b.courseId.getD "") = some c)
    (hmem : b.userId.getD "" ∈ c.enrolledUsers.getD []) :
    verifyPayment secret env st b =
      ⟨⟨200, .verified true "already_enrolled" "You are already enrolled in this course."⟩,
        st, [.getCourse (b.courseId.getD "")], []⟩ := by
  unfold verifyPayment
  rw [if_neg (by simp [h1, h2, h3, h4, h5, h6]), if_neg (not_not_intro hsig), hc]
  dsimp only
  rw [if_pos hmem]

/-- C8: when the course document exists but has no `enrolledUsers` field, a
verified payment is handled exactly as for a course whose `enrolledUsers`
array is empty: the response is `success` (never `already_enrolled`) and the
user is added and an EnrollmentRecord appended, with response and operation
trace identical between the two stores. -/
theorem missing_enrolledUsers_as_empty (cfg : Config) (env : Env) (st1 st2 : Store) (req : Req)
    (hmeth : req.method = "POST") (hact : req.body.action = some "verify_payment")
    (hk : truthyS cfg.keyId = true) (hs : truthyS cfg.keySecret = true)
    (hi : cfg.instancePresent = true)
    (h1 : truthyS req.body.razorpay_payment_id = true)
    (h2 : truthyS req.body.razorpay_order_id = true)
    (h3 : truthyS req.body.razorpay_signature = true)
    (h4 : truthyS req.body.courseId = true)
    (h5 : truthyS req.body.courseTitle = true)
    (h6 : truthyS req.body.userId = true)
    (hsig : env.hmacSha256Hex (cfg.keySecret.getD "")
        (req.body.razorpay_order_id.getD "" ++ "|" ++ req.body.razorpay_payment_id.getD "") =
      req.body.razorpay_signature.getD "")
    (hupd : env.updateFails = false) (hadd : env.addFails = false)
    (p : Int)
    (hc1 : st1.getCourse (req.body.courseId.getD "") = some ⟨none, p⟩)
    (hc2 : st2.getCourse (req.body.courseId.getD "") = some ⟨some [], p⟩) :
    (handler cfg env st1 req).resp =
      ⟨200, .verified true "success" "Payment successful and course enrolled!"⟩ ∧
    (handler cfg env st1 req).resp = (handler cfg env st2 req).resp ∧
    (handler cfg env st1 req).ops = (handler cfg env st2 req).ops ∧
    (handler cfg env st1 req).ops =
      [.getCourse (req.body.courseId.getD ""),
       .updateCourse (req.body.courseId.getD "") (req.body.userId.getD ""),
       .addEnrollment ⟨req.body.userId.getD "", req.body.courseId.getD "",
         req.body.courseTitle.getD "", req.body.razorpay_payment_id.getD "",
         req.body.razorpay_order_id.getD "", p, "INR", "Paid", "completed"⟩] := by
  have e1 := verifyPayment_success (cfg.keySecret.getD "") env st1 req.body
    h1 h2 h3 h4 h5 h6 hsig ⟨none, p⟩ hc1 (List.not_mem_nil _) hupd hadd
  have e2 := verifyPayment_success (cfg.keySecret.getD "") env st2 req.body
    h1 h2 h3 h4 h5 h6 hsig ⟨some [], p⟩ hc2 (List.not_mem_nil _) hupd hadd
  rw [handler_verify_eq cfg env st1 req hmeth hact hk hs hi, e1,
    handler_verify_eq cfg env st2 req hmeth hact hk hs hi, e2]
  exact ⟨rfl, rfl, rfl, rfl⟩

/-- C8 witness: the fixture course without an `enrolledUsers` field versus
the same course with an empty array. -/
theorem missing_enrolledUsers_as_empty_witness :
    (handler wCfg wEnv wStoreNone wReqVerify).resp =
      ⟨200, .verified true "success" "Payment successful and course enrolled!"⟩ ∧
    (handler wCfg wEnv wStoreNone wReqVerify).resp = (handler wCfg wEnv wStore wReqVerify).resp ∧
    (handler wCfg wEnv wStoreNone wReqVerify).ops = (handler wCfg wEnv wStore wReqVerify).ops ∧
    (handler wCfg wEnv wStoreNone wReqVerify).ops =
      [.getCourse "c1", .updateCourse "c1" "u1",
       .addEnrollment ⟨"u1", "c1", "T", "pay_1", "order_1", 500, "INR", "Paid", "completed"⟩] :=
  missing_enrolledUsers_as_empty wCfg wEnv wStoreNone wStore wReqVerify
    rfl rfl rfl rfl rfl rfl rfl rfl rfl rfl rfl (by decide) rfl rfl 500 rfl rfl

/-- C2 counterexample: on a store where the user is already enrolled, the
first of the two calls returns `already_enrolled`, not `success`, so the
claim's universally quantified first-call conclusion fails at this input. -/
theorem verify_twice_counterexample :
    (handler wCfg wEnv wStoreEnrolled wReqVerify).resp =
      ⟨200, .verified true "already_enrolled" "You are already enrolled in this course."⟩ ∧
    (handler wCfg wEnv wStoreEnrolled wReqVerify).resp ≠
      ⟨200, .verified true "success" "Payment successful and course enrolled!"⟩ := by
  decide

/-- C2 (amended): for every valid `verify_payment` payload whose signature
verifies, whose course exists, and whose user is not yet enrolled, calling
the handler twice in sequence yields `success` then `already_enrolled`; the
second call issues only the course read and leaves the store unchanged, and
exactly one EnrollmentRecord is appended in total across the two calls. -/
theorem verify_twice_idempotent (cfg : Config) (env : Env) (st : Store) (req : Req)
    (hmeth : req.method = "POST") (hact : req.body.action = some "verify_payment")
    (hk : truthyS cfg.keyId = true) (hs : truthyS cfg.keySecret = true)
    (hi : cfg.instancePresent = true)
    (h1 : truthyS req.body.razorpay_payment_id = true)
    (h2 : truthyS req.body.razorpay_order_id = true)
    (h3 : truthyS req.body.razorpay_signature = true)
    (h4 : truthyS req.body.courseId = true)
    (h5 : truthyS req.body.courseTitle = true)
    (h6 : truthyS req.body.userId = true)
    (hsig : env.hmacSha256Hex (cfg.keySecret.getD "")
        (req.body.razorpay_order_id.getD "" ++ "|" ++ req.body.razorpay_payment_id.getD "") =
      req.body.razorpay_signature.getD "")
    (hupd : env.updateFails = false) (hadd : env.addFails = false)
    (c : Course) (hc : st.getCourse (req.body.courseId.getD "") = some c)
    (hnot : req.body.userId.getD "" ∉ c.enrolledUsers.getD []) :
    (handler cfg env st req).resp =
      ⟨200, .verified true "success" "Payment successful and course enrolled!"⟩ ∧
    (handler cfg env (handler cfg env st req).store req).resp =
      ⟨200, .verified true "already_enrolled" "You are already enrolled in this course."⟩ ∧
    (handler cfg env (handler cfg env st req).store req).store =
      (handler cfg env st req).store ∧
    (handler cfg env (handler cfg env st req).store req).ops =
      [.getCourse (req.body.courseId.getD "")] ∧
    (handler cfg env st req).store.enrollments = st.enrollments ++
      [⟨req.body.userId.getD "", req.body.courseId.getD "", req.body.courseTitle.getD "",
        req.body.razorpay_payment_id.getD "", req.body.razorpay_order_id.getD "",
        c.price, "INR", "Paid", "completed"⟩] := by
  have e1 := verifyPayment_success (cfg.keySecret.getD "") env st req.body
    h1 h2 h3 h4 h5 h6 hsig c hc hnot hupd hadd
  have hh1 : handler cfg env st req =
      ⟨⟨200, .verified true "success" "Payment successful and course enrolled!"⟩,
        (st.updateEnrolledUsers (req.body.courseId.getD "") (req.body.userId.getD "")).addEnrollment
          ⟨req.body.userId.getD "", req.body.courseId.getD "", req.body.courseTitle.getD "",
           req.body.razorpay_payment_id.getD "", req.body.razorpay_order_id.getD "", c.price,
           "INR", "Paid", "completed"⟩,
        [.getCourse (req.body.courseId.getD ""),
         .updateCourse (req.body.courseId.getD "") (req.body.userId.getD ""),
         .addEnrollment ⟨req.body.userId.getD "", req.body.courseId.getD "",
           req.body.courseTitle.getD "", req.body.razorpay_payment_id.getD "",
           req.body.razorpay_order_id.getD "", c.price, "INR", "Paid", "completed"⟩], []⟩ :=
    (handler_verify_eq cfg env st req hmeth hact hk hs hi).trans e1
  have hc2 : ((st.updateEnrolledUsers (req.body.courseId.getD "")
        (req.body.userId.getD "")).addEnrollment
          ⟨req.body.userId.getD "", req.body.courseId.getD "", req.body.courseTitle.getD "",
           req.body.razorpay_payment_id.getD "", req.body.razorpay_order_id.getD "", c.price,
           "INR", "Paid", "completed"⟩).getCourse (req.body.courseId.getD "") =
      some (enrollUser c (req.body.userId.getD "")) := by
    rw [getCourse_addEnrollment, getCourse_updateEnrolledUsers, hc]
    rfl
  have hmem : req.body.userId.getD "" ∈
      (enrollUser c (req.body.userId.getD "")).enrolledUsers.getD [] :=
    mem_arrayUnion_self _ _
  have e2 := verifyPayment_already_enrolled (cfg.keySecret.getD "") env
    ((st.updateEnrolledUsers (req.body.courseId.getD "") (req.body.userId.getD "")).addEnrollment
      ⟨req.body.userId.getD "", req.body.courseId.getD "", req.body.courseTitle.getD "",
       req.body.razorpay_payment_id.getD "", req.body.razorpay_order_id.getD "", c.price,
       "INR", "Paid", "completed"⟩) req.body
    h1 h2 h3 h4 h5 h6 hsig (enrollUser c (req.body.userId.getD "")) hc2 hmem
  rw [hh1]
  have hh2 := (handler_verify_eq cfg env _ req hmeth hact hk hs hi).trans e2
  rw [hh2]
  exact ⟨rfl, rfl, rfl, rfl, rfl⟩

/-- C2 (amended) witness: the fixture request run twice starting from a
store with an empty enrollment array. -/
theorem verify_twice_idempotent_witness :
    (handler wCfg wEnv wStore wReqVerify).resp =
      ⟨200, .verified true "success" "Payment successful and course enrolled!"⟩ ∧
    (handler wCfg wEnv (handler wCfg wEnv wStore wReqVerify).store wReqVerify).resp =
      ⟨200, .verified true "already_enrolled" "You are already enrolled in this course."⟩ ∧
    (handler wCfg wEnv (handler wCfg wEnv wStore wReqVerify).store wReqVerify).store =
      (handler wCfg wEnv wStore wReqVerify).store ∧
    (handler wCfg wEnv (handler wCfg wEnv wStore wReqVerify).store wReqVerify).ops =
      [.getCourse "c1"] ∧
    (handler wCfg wEnv wStore wReqVerify).store.enrollments = wStore.enrollments ++
      [⟨"u1", "c1", "T", "pay_1", "order_1", 500, "INR", "Paid", "completed"⟩] :=
  verify_twice_idempotent wCfg wEnv wStore wReqVerify
    rfl rfl rfl rfl rfl rfl rfl rfl rfl rfl rfl (by decide) rfl rfl
    ⟨some [], 500⟩ rfl (List.not_mem_nil _)

/-- Every handler run either produces one of the four direct responses or
delegates to the `create_order` or `verify_payment` branch. -/
theorem handler_cases (cfg : Config) (env : Env) (st : Store) (req : Req) :
    handler cfg env st req = ⟨⟨200, .empty⟩, st, [], []⟩ ∨
    handler cfg env st req =
      ⟨⟨500, .err false "Payment backend not fully configured."⟩, st, [], []⟩ ∨
    handler cfg env st req = createOrder env st req.body ∨
    handler cfg env st req = verifyPayment (cfg.keySecret.getD "") env st req.body ∨
    handler cfg env st req = ⟨⟨400, .err false "Invalid action specified."⟩, st, [], []⟩ ∨
    handler cfg env st req =
      ⟨⟨200, .info "Razorpay API endpoint for EduSource. Send POST requests with 'action' in body."⟩,
        st, [], []⟩ := by
  unfold handler
  repeat' split
  all_goals simp

/-- Order creation never touches the document store. -/
theorem createOrder_ops_nil (env : Env) (st : Store) (b : Body) :
    (createOrder env st b).ops = [] := by
  unfold createOrder
  repeat' split
  all_goals rfl

/-- Payment verification never calls the provider's order-creation API. -/
theorem verifyPayment_providerCalls_nil (secret : String) (env : Env) (st : Store) (b : Body) :
    (verifyPayment secret env st b).providerCalls = [] := by
  unfold verifyPayment
  repeat' split
  all_goals rfl

/-- Every provider call made by the order-creation branch carries the
receipt `rcpt_${Date.now()}` for the run's clock value. -/
theorem createOrder_receipt (env : Env) (st : Store) (b : Body) (a : OrderCreateArgs)
    (ha : a ∈ (createOrder env st b).providerCalls) : a.receipt = receiptId env.now := by
  unfold createOrder at ha
  repeat' split at ha
  all_goals simp_all

/-- The C3 property at the level of the verification branch. -/
theorem verifyPayment_mutation_discipline (secret : String) (env : Env) (st : Store) (b : Body) :
    noAddBeforeUpdate (verifyPayment secret env st b).ops = true ∧
    (((∃ cid uid, StoreOp.updateCourse cid uid ∈ (verifyPayment secret env st b).ops) ∧
        (env.updateFails = true ∨ env.addFails = true)) →
      (verifyPayment secret env st b).resp.status = 500 ∧
      (verifyPayment secret env st b).resp.body.successFlag = some false) := by
  unfold verifyPayment
  repeat' split
  all_goals refine ⟨by simp [noAddBeforeUpdate], ?_⟩
  all_goals rintro ⟨⟨cid, uid, hmem⟩, hfail⟩
  all_goals simp_all [ResBody.successFlag]

/-- The C9 property at the level of the verification branch. -/
theorem verifyPayment_record_fields (secret : String) (env : Env) (st : Store) (b : Body)
    (r : EnrollmentRecord)
    (hr : StoreOp.addEnrollment r ∈ (verifyPayment secret env st b).ops) :
    r.currency = "INR" ∧ r.enrollmentType = "Paid" ∧ r.status = "completed" ∧
    ∃ c, st.getCourse (b.courseId.getD "") = some c ∧ r.amount = c.price := by
  unfold verifyPayment at hr
  repeat' split at hr
  all_goals simp_all

/-- C3: in every handler execution the enrollment-record append is issued
only after the course update has been attempted (no `addEnrollment` occurs
before the first `updateCourse` in the operation trace), and if a store
mutation was attempted and a mutation fault is present the response is
HTTP 500 with `success:false`, never a success response. -/
theorem update_precedes_add (cfg : Config) (env : Env) (st : Store) (req : Req) :
    noAddBeforeUpdate (handler cfg env st req).ops = true ∧
    (((∃ cid uid, StoreOp.updateCourse cid uid ∈ (handler cfg env st req).ops) ∧
        (env.updateFails = true ∨ env.addFails = true)) →
      (handler cfg env st req).resp.status = 500 ∧
      (handler cfg env st req).resp.body.successFlag = some false) := by
  rcases handler_cases cfg env st req with h | h | h | h | h | h
  all_goals rw [h]
  · exact ⟨rfl, by rintro ⟨⟨cid, uid, hmem⟩, -⟩; simp at hmem⟩
  · exact ⟨rfl, by rintro ⟨⟨cid, uid, hmem⟩, -⟩; simp at hmem⟩
  · refine ⟨by rw [createOrder_ops_nil]; rfl, ?_⟩
    rintro ⟨⟨cid, uid, hmem⟩, -⟩
    rw [createOrder_ops_nil] at hmem
    simp at hmem
  · exact verifyPayment_mutation_discipline (cfg.keySecret.getD "") env st req.body
  · exact ⟨rfl, by rintro ⟨⟨cid, uid, hmem⟩, -⟩; simp at hmem⟩
  · exact ⟨rfl, by rintro ⟨⟨cid, uid, hmem⟩, -⟩; simp at hmem⟩

/-- C3 witness: a verified payment against an environment whose course
update rejects yields HTTP 500 with `success:false`, and the trace never
appends before updating. -/
theorem update_precedes_add_witness :
    noAddBeforeUpdate (handler wCfg wEnvUpdFail wStore wReqVerify).ops = true ∧
    ((handler wCfg wEnvUpdFail wStore wReqVerify).resp.status = 500 ∧
      (handler wCfg wEnvUpdFail wStore wReqVerify).resp.body.successFlag = some false) :=
  ⟨(update_precedes_add wCfg wEnvUpdFail wStore wReqVerify).1,
   (update_precedes_add wCfg wEnvUpdFail wStore wReqVerify).2
     ⟨⟨"c1", "u1", by decide⟩, Or.inl rfl⟩⟩

/-- C9: every enrollment record the handler appends carries currency
`"INR"`, enrollment type `"Paid"`, status `"completed"`, and the price of
the course document read during this verification, independently of any
amount or currency submitted earlier at order creation. -/
theorem enrollment_record_fields (cfg : Config) (env : Env) (st : Store) (req : Req)
    (r : EnrollmentRecord)
    (hr : StoreOp.addEnrollment r ∈ (handler cfg env st req).ops) :
    r.currency = "INR" ∧ r.enrollmentType = "Paid" ∧ r.status = "completed" ∧
    ∃ c, st.getCourse (req.body.courseId.getD "") = some c ∧ r.amount = c.price := by
  rcases handler_cases cfg env st req with h | h | h | h | h | h
  all_goals rw [h] at hr
  · simp at hr
  · simp at hr
  · rw [createOrder_ops_nil] at hr
    simp at hr
  · exact verifyPayment_record_fields (cfg.keySecret.getD "") env st req.body r hr
  · simp at hr
  · simp at hr

/-- C9 witness: the record appended by the fixture verification has the
required constant fields and the course's price. -/
theorem enrollment_record_fields_witness :
    (⟨"u1", "c1", "T", "pay_1", "order_1", 500, "INR", "Paid", "completed"⟩ :
        EnrollmentRecord).currency = "INR" ∧
    (⟨"u1", "c1", "T", "pay_1", "order_1", 500, "INR", "Paid", "completed"⟩ :
        EnrollmentRecord).enrollmentType = "Paid" ∧
    (⟨"u1", "c1", "T", "pay_1", "order_1", 500, "INR", "Paid", "completed"⟩ :
        EnrollmentRecord).status = "completed" ∧
    ∃ c, wStore.getCourse "c1" = some c ∧
      (⟨"u1", "c1", "T", "pay_1", "order_1", 500, "INR", "Paid", "completed"⟩ :
        EnrollmentRecord).amount = c.price :=
  enrollment_record_fields wCfg wEnv wStore wReqVerify _ (by decide)

/-- Every provider order-creation call of a handler run carries the receipt
`rcpt_${Date.now()}` for that run's clock value. -/
theorem mem_providerCalls_receipt (cfg : Config) (env : Env) (st : Store) (req : Req)
    (a : OrderCreateArgs) (ha : a ∈ (handler cfg env st req).providerCalls) :
    a.receipt = receiptId env.now := by
  rcases handler_cases cfg env st req with h | h | h | h | h | h
  all_goals rw [h] at ha
  · simp at ha
  · simp at ha
  · exact createOrder_receipt env st req.body a ha
  · rw [verifyPayment_providerCalls_nil] at ha
    simp at ha
  · simp at ha
  · simp at ha

/-- C7: receipts of provider calls made at distinct clock values are
distinct, and a receipt generated at any clock value below 10^35
milliseconds (far beyond every JS timestamp) is at most 40 characters
long. -/
theorem receipt_unique_and_bounded (cfg1 cfg2 : Config) (env1 env2 : Env)
    (st1 st2 : Store) (req1 req2 : Req) (a1 a2 : OrderCreateArgs)
    (ha1 : a1 ∈ (handler cfg1 env1 st1 req1).providerCalls)
    (ha2 : a2 ∈ (handler cfg2 env2 st2 req2).providerCalls)
    (hne : env1.now ≠ env2.now) (hbound : env1.now < 10 ^ 35) :
    a1.receipt ≠ a2.receipt ∧ a1.receipt.length ≤ 40 := by
  rw [mem_providerCalls_receipt cfg1 env1 st1 req1 a1 ha1,
    mem_providerCalls_receipt cfg2 env2 st2 req2 a2 ha2]
  exact ⟨fun h => hne (receiptId_injective h), receiptId_length_le hbound⟩

def wEnvLater : Env := ⟨wHmac, 1700000000001, some "order_xyz", false, false⟩

theorem wProviderCallsNow :
    (handler wCfg wEnv wStore wReqCreate).providerCalls =
      [⟨500, "INR", receiptId 1700000000000, "c1", "u1"⟩] := by
  rw [handler_create_eq wCfg wEnv wStore wReqCreate rfl rfl rfl rfl rfl]
  rfl

theorem wProviderCallsLater :
    (handler wCfg wEnvLater wStore wReqCreate).providerCalls =
      [⟨500, "INR", receiptId 1700000000001, "c1", "u1"⟩] := by
  rw [handler_create_eq wCfg wEnvLater wStore wReqCreate rfl rfl rfl rfl rfl]
  rfl

/-- C7 witness: two order creations at clock values 1700000000000 and
1700000000001 produce distinct receipts of length at most 40. -/
theorem receipt_unique_and_bounded_witness :
    (⟨500, "INR", receiptId 1700000000000, "c1", "u1"⟩ : OrderCreateArgs).receipt ≠
      (⟨500, "INR", receiptId 1700000000001, "c1", "u1"⟩ : OrderCreateArgs).receipt ∧
    (⟨500, "INR", receiptId 1700000000000, "c1", "u1"⟩ : OrderCreateArgs).receipt.length ≤ 40 :=
  receipt_unique_and_bounded wCfg wCfg wEnv wEnvLater wStore wStore wReqCreate wReqCreate _ _
    (by rw [wProviderCallsNow]; exact List.mem_singleton.mpr rfl)
    (by rw [wProviderCallsLater]; exact List.mem_singleton.mpr rfl)
    (by decide) (by decide)

end EduSource
